import Mathlib

/-!
Shallow embedding of the tilemap core of `bevy_sparse_tilemap`
(`src/lib.rs`, `src/tilemap.rs`, `src/tilemap/chunk.rs`).

Rust `u8` values are modelled as `Nat` with explicit `% 256` wrapping where
the source wraps; Rust `i32` values are modelled as `Int` (the spec treats
chunk-coordinate overflow as out of scope).  Functions that panic in Rust
(`ChunkPos::new`, the `assert!` in `set_x`/`set_y`) return `Option`, with
`none` standing for the panic.
-/

namespace BevySparseTilemap

/-- `CHUNK_SIZE` from `src/lib.rs`: the width/height of tilemap chunks. -/
def CHUNK_SIZE : Nat := 32

/-- `ChunkPos(u8, u8)` from `src/tilemap/chunk.rs`: a position in a chunk.
The fields are u8 values; the intended invariant is `x < CHUNK_SIZE ∧ y < CHUNK_SIZE`. -/
structure ChunkPos where
  x : Nat
  y : Nat
deriving DecidableEq, Repr

/-- The documented invariant of `ChunkPos`: both coordinates lie in `[0, CHUNK_SIZE)`. -/
def ChunkPos.inRange (p : ChunkPos) : Prop :=
  p.x < CHUNK_SIZE ∧ p.y < CHUNK_SIZE

instance (p : ChunkPos) : Decidable p.inRange := by
  unfold ChunkPos.inRange; infer_instance

/-- `ChunkPos::try_new`: `Some` iff both coordinates are `< CHUNK_SIZE`. -/
def ChunkPos.try_new (x y : Nat) : Option ChunkPos :=
  if x < CHUNK_SIZE ∧ y < CHUNK_SIZE then some ⟨x, y⟩ else none

/-- `ChunkPos::new`: panics (here `none`) when `try_new` fails. -/
def ChunkPos.new (x y : Nat) : Option ChunkPos :=
  ChunkPos.try_new x y

/-- `ChunkPos::as_index`: row-major index `x + y * CHUNK_SIZE`. -/
def ChunkPos.as_index (p : ChunkPos) : Nat :=
  p.x + p.y * CHUNK_SIZE

/-- `ChunkPos::set_x`: the source asserts `x <= CHUNK_SIZE` (note: `<=`, not `<`)
and then writes field `.0`.  `none` models the panic of a failed assert. -/
def ChunkPos.set_x (p : ChunkPos) (x : Nat) : Option ChunkPos :=
  if x ≤ CHUNK_SIZE then some { p with x := x } else none

/-- `ChunkPos::set_y`: the source asserts `y <= CHUNK_SIZE` and then writes
`self.0` — the x field — leaving the y field untouched. -/
def ChunkPos.set_y (p : ChunkPos) (y : Nat) : Option ChunkPos :=
  if y ≤ CHUNK_SIZE then some { p with x := y } else none

/-- Rust `u8::wrapping_add` on u8-range naturals. -/
def wrapping_add_u8 (a b : Nat) : Nat :=
  (a + b) % 256

/-- Rust `u8::wrapping_sub` on u8-range naturals (callers pass values `< 256`). -/
def wrapping_sub_u8 (a b : Nat) : Nat :=
  (a + (256 - b)) % 256

/-- Rust `u8::overflowing_sub`: the wrapped difference and the borrow flag
(`true` iff `b > a`). -/
def overflowing_sub_u8_prim (a b : Nat) : Nat × Bool :=
  (wrapping_sub_u8 a b, decide (a < b))

/-- The local helper inside `ChunkPos::overflowing_add`:
`r = lhs.wrapping_add(rhs)`, masked with `& (CHUNK_SIZE - 1)`, flag `r > CHUNK_SIZE`
(note the source compares with `>`, not `>=`). -/
def overflowing_add_u8 (lhs rhs : Nat) : Nat × Bool :=
  (wrapping_add_u8 lhs rhs &&& (CHUNK_SIZE - 1),
   decide (wrapping_add_u8 lhs rhs > CHUNK_SIZE))

/-- The local helper inside `ChunkPos::overflowing_sub`: u8 overflowing
subtraction, masked with `& (CHUNK_SIZE - 1)`, flag = the u8 borrow. -/
def overflowing_sub_u8 (lhs rhs : Nat) : Nat × Bool :=
  ((overflowing_sub_u8_prim lhs rhs).1 &&& (CHUNK_SIZE - 1),
   (overflowing_sub_u8_prim lhs rhs).2)

/-- `ChunkPos::wrapping_add`. -/
def ChunkPos.wrapping_add (a b : ChunkPos) : ChunkPos :=
  ⟨wrapping_add_u8 a.x b.x &&& (CHUNK_SIZE - 1),
   wrapping_add_u8 a.y b.y &&& (CHUNK_SIZE - 1)⟩

/-- `ChunkPos::wrapping_sub`. -/
def ChunkPos.wrapping_sub (a b : ChunkPos) : ChunkPos :=
  ⟨wrapping_sub_u8 a.x b.x &&& (CHUNK_SIZE - 1),
   wrapping_sub_u8 a.y b.y &&& (CHUNK_SIZE - 1)⟩

/-- `ChunkPos::overflowing_add`: per-axis result and the two overflow flags
(`BVec2` modelled as `Bool × Bool`). -/
def ChunkPos.overflowing_add (a b : ChunkPos) : ChunkPos × Bool × Bool :=
  (⟨(overflowing_add_u8 a.x b.x).1, (overflowing_add_u8 a.y b.y).1⟩,
   (overflowing_add_u8 a.x b.x).2, (overflowing_add_u8 a.y b.y).2)

/-- `ChunkPos::overflowing_sub`: per-axis result and the two borrow flags. -/
def ChunkPos.overflowing_sub (a b : ChunkPos) : ChunkPos × Bool × Bool :=
  (⟨(overflowing_sub_u8 a.x b.x).1, (overflowing_sub_u8 a.y b.y).1⟩,
   (overflowing_sub_u8 a.x b.x).2, (overflowing_sub_u8 a.y b.y).2)

/-- `IVec2`: a pair of i32 coordinates, modelled over `Int`. -/
structure IVec2 where
  x : Int
  y : Int
deriving DecidableEq, Repr

/-- `TilemapPos` from `src/tilemap.rs`: the chunk a position is in and the
tile within that chunk. -/
structure TilemapPos where
  chunk : IVec2
  tile : ChunkPos
deriving DecidableEq, Repr

/-- Rust `i32 as u8`: keep the low 8 bits of the two's-complement value. -/
def i32_as_u8 (v : Int) : Nat :=
  (v.emod 256).toNat

/-- `impl From<IVec2> for TilemapPos`: chunk part by Rust's truncating `i32`
division by `CHUNK_SIZE`, tile part by casting each component to u8 and
masking with `& (CHUNK_SIZE - 1)` (the inner `ChunkPos::new` always succeeds
on masked values, so it is inlined). -/
def TilemapPos.fromIVec2 (v : IVec2) : TilemapPos :=
  { chunk := ⟨Int.tdiv v.x (CHUNK_SIZE : Int), Int.tdiv v.y (CHUNK_SIZE : Int)⟩,
    tile := ⟨i32_as_u8 v.x &&& (CHUNK_SIZE - 1), i32_as_u8 v.y &&& (CHUNK_SIZE - 1)⟩ }

/-- `impl From<TilemapPos> for IVec2`: `chunk * CHUNK_SIZE + tile`. -/
def TilemapPos.toIVec2 (p : TilemapPos) : IVec2 :=
  ⟨p.chunk.x * (CHUNK_SIZE : Int) + (p.tile.x : Int),
   p.chunk.y * (CHUNK_SIZE : Int) + (p.tile.y : Int)⟩

/-- `impl Add for TilemapPos`: add chunk parts, `overflowing_add` the tiles,
and bump each chunk axis whose carry flag is set. -/
def TilemapPos.add (a b : TilemapPos) : TilemapPos :=
  let r := ChunkPos.overflowing_add a.tile b.tile
  { chunk := ⟨a.chunk.x + b.chunk.x + (if r.2.1 then 1 else 0),
              a.chunk.y + b.chunk.y + (if r.2.2 then 1 else 0)⟩,
    tile := r.1 }

/-- `impl Sub for TilemapPos`: subtract chunk parts, `overflowing_sub` the
tiles, and decrement each chunk axis whose borrow flag is set. -/
def TilemapPos.sub (a b : TilemapPos) : TilemapPos :=
  let r := ChunkPos.overflowing_sub a.tile b.tile
  { chunk := ⟨a.chunk.x - b.chunk.x - (if r.2.1 then 1 else 0),
              a.chunk.y - b.chunk.y - (if r.2.2 then 1 else 0)⟩,
    tile := r.1 }

/-- `impl Add<IVec2> for TilemapPos`: translate the chunk part only. -/
def TilemapPos.addChunks (a : TilemapPos) (rhs : IVec2) : TilemapPos :=
  { chunk := ⟨a.chunk.x + rhs.x, a.chunk.y + rhs.y⟩, tile := a.tile }

/-- `impl Sub<IVec2> for TilemapPos`: translate the chunk part only. -/
def TilemapPos.subChunks (a : TilemapPos) (rhs : IVec2) : TilemapPos :=
  { chunk := ⟨a.chunk.x - rhs.x, a.chunk.y - rhs.y⟩, tile := a.tile }

/-- `Chunk<T>` from `src/tilemap/chunk.rs`: a dense `CHUNK_SIZE * CHUNK_SIZE`
array of optional tiles (row-major), the `regenerate_mesh` dirty flag, the
mesh-builder carry data, and the optional mesh `Entity` (modelled as `Nat`). -/
structure Chunk (T : Type) (C : Type) where
  tiles : Fin (CHUNK_SIZE * CHUNK_SIZE) → Option T
  regenerate_mesh : Bool
  mesh_carry_data : C
  mesh_entity : Option Nat

/-- `impl Default for Chunk`: all slots empty, not dirty, default carry data
(the default value is passed explicitly), no mesh entity. -/
def Chunk.defaultChunk {T C : Type} (d0 : C) : Chunk T C :=
  ⟨fun _ => none, false, d0, none⟩

/-- `impl Index<ChunkPos> for Chunk`: the slot at `pos.as_index()`.  In Rust an
out-of-range index panics; the invariant-respecting callers stay in range. -/
def Chunk.getSlot {T C : Type} (c : Chunk T C) (p : ChunkPos) : Option T :=
  if h : p.as_index < CHUNK_SIZE * CHUNK_SIZE then c.tiles ⟨p.as_index, h⟩ else none

/-- `Chunk::set`: mark dirty, replace the slot at `pos`, return its old value. -/
def Chunk.set {T C : Type} (c : Chunk T C) (p : ChunkPos) (t : T) : Chunk T C × Option T :=
  ({ c with regenerate_mesh := true,
            tiles := fun i => if i.val = p.as_index then some t else c.tiles i },
   c.getSlot p)

/-- `Chunk::remove`: mark dirty, take the slot at `pos`, return its old value. -/
def Chunk.remove {T C : Type} (c : Chunk T C) (p : ChunkPos) : Chunk T C × Option T :=
  ({ c with regenerate_mesh := true,
            tiles := fun i => if i.val = p.as_index then none else c.tiles i },
   c.getSlot p)

/-- The `ChunkPos` corresponding to a row-major array index, as produced by
`ChunkPos::iter_positions` zipped against the tile array. -/
def posOfIndex (i : Nat) : ChunkPos :=
  ⟨i % CHUNK_SIZE, i / CHUNK_SIZE⟩

/-- `Chunk::iter_tile_positions`: the occupied slots with their positions, in
row-major order. -/
def Chunk.tilePositions {T C : Type} (c : Chunk T C) : List (ChunkPos × T) :=
  (List.finRange (CHUNK_SIZE * CHUNK_SIZE)).filterMap
    (fun i => (c.tiles i).map (fun t => (posOfIndex i.val, t)))

/-- The `MeshBuilder` trait of `src/rendering.rs`, as an abstract capability
record: a builder type with `init` (seeded from carry data), `set_offset`,
per-tile `add_to_mesh` (the `Tile` trait's contribution), and `finish`
producing a mesh and new carry data. -/
structure MeshBuilderSpec (T : Type) where
  CarryData : Type
  carryDefault : CarryData
  Builder : Type
  Mesh : Type
  init : CarryData → Builder
  set_offset : ChunkPos → Builder → Builder
  add_to_mesh : T → Builder → Builder
  finish : Builder → Mesh × CarryData

/-- The per-chunk body of `generate_meshes_system` (`src/lib.rs`): if the chunk
is dirty, take its carry data (leaving the default), fold every occupied tile
slot in row-major order into a builder seeded with that carry data (setting the
tile's offset first), store the new carry data back, and update or spawn the
mesh entity (`resolvable` models whether the stored entity still answers the
mesh query; `fresh` is the entity a spawn would create).  A chunk that is not
dirty is filtered out and left untouched.  Note the source never resets
`regenerate_mesh`. -/
def generateMeshChunk {T : Type} (mb : MeshBuilderSpec T)
    (resolvable : Nat → Bool) (fresh : Nat)
    (c : Chunk T mb.CarryData) : Chunk T mb.CarryData :=
  if c.regenerate_mesh then
    let b0 := mb.init c.mesh_carry_data
    let b1 := c.tilePositions.foldl
      (fun b pt => mb.add_to_mesh pt.2 (mb.set_offset pt.1 b)) b0
    let r := mb.finish b1
    { c with mesh_carry_data := r.2,
             mesh_entity :=
               match c.mesh_entity with
               | some e => if resolvable e then some e else some fresh
               | none => some fresh }
  else c

/-- `Tilemap<T>` from `src/tilemap.rs`: a sparse map from chunk coordinate to
`Chunk`.  The `HashMap` is modelled as an association list with unique keys;
insertion appends, and updates rewrite the first (only) entry with the key. -/
structure Tilemap (T : Type) (C : Type) where
  data : List (IVec2 × Chunk T C)

/-- Number of chunks stored in the map. -/
def Tilemap.numChunks {T C : Type} (m : Tilemap T C) : Nat :=
  m.data.length

/-- `Tilemap::get_chunk`: lookup without allocation. -/
def Tilemap.get_chunk {T C : Type} (m : Tilemap T C) (p : IVec2) : Option (Chunk T C) :=
  (m.data.find? (fun e => decide (e.1 = p))).map (fun e => e.2)

/-- Rewrite the first entry whose key is `p` (the mutation through the
`&mut Chunk` that `get_chunk_mut` / `entry` hands out). -/
def replaceChunk {T C : Type} :
    List (IVec2 × Chunk T C) → IVec2 → Chunk T C → List (IVec2 × Chunk T C)
  | [], _, _ => []
  | e :: rest, p, c => if e.1 = p then (p, c) :: rest else e :: replaceChunk rest p c

/-- `Tilemap::get`: the tile at `pos` if its chunk exists and the slot is set. -/
def Tilemap.get {T C : Type} (m : Tilemap T C) (pos : TilemapPos) : Option T :=
  (m.get_chunk pos.chunk).bind (fun c => c.getSlot pos.tile)

/-- `Tilemap::set`: `get_or_create_chunk(pos.chunk)` then `Chunk::set` — an
existing chunk is updated in place, a missing one is freshly defaulted
(with default carry data `d0`) and inserted. -/
def Tilemap.set {T C : Type} (m : Tilemap T C) (d0 : C) (pos : TilemapPos) (t : T) :
    Tilemap T C × Option T :=
  match m.get_chunk pos.chunk with
  | some c =>
    let r := c.set pos.tile t
    (⟨replaceChunk m.data pos.chunk r.1⟩, r.2)
  | none =>
    let r := (Chunk.defaultChunk d0).set pos.tile t
    (⟨m.data ++ [(pos.chunk, r.1)]⟩, r.2)

/-- `Tilemap::remove`: `get_chunk_mut(pos.chunk).and_then(remove)` — a missing
chunk leaves the map untouched and yields nothing. -/
def Tilemap.removeAt {T C : Type} (m : Tilemap T C) (pos : TilemapPos) :
    Tilemap T C × Option T :=
  match m.get_chunk pos.chunk with
  | some c =>
    let r := c.remove pos.tile
    (⟨replaceChunk m.data pos.chunk r.1⟩, r.2)
  | none => (m, none)

/-! Helper lemmas shared by several proofs. -/

/-- Masking with `CHUNK_SIZE - 1` is reduction modulo `CHUNK_SIZE`
(`CHUNK_SIZE` is a power of two). -/
theorem land_chunk_mask (r : Nat) : r &&& (CHUNK_SIZE - 1) = r % CHUNK_SIZE := by
  have h := Nat.and_pow_two_sub_one_eq_mod r 5
  norm_num [CHUNK_SIZE] at h ⊢
  exact h

/-- An in-range position indexes inside the dense tile array. -/
theorem ChunkPos.as_index_lt {p : ChunkPos} (hp : p.inRange) :
    p.as_index < CHUNK_SIZE * CHUNK_SIZE := by
  obtain ⟨h1, h2⟩ := hp
  simp only [ChunkPos.as_index, CHUNK_SIZE] at *
  omega

/-- Row-major indexing is injective on in-range positions. -/
theorem ChunkPos.as_index_inj {p q : ChunkPos} (hp : p.inRange) (hq : q.inRange)
    (h : p.as_index = q.as_index) : p = q := by
  obtain ⟨a, b⟩ := p
  obtain ⟨c, d⟩ := q
  simp only [ChunkPos.inRange, ChunkPos.as_index, CHUNK_SIZE] at *
  have hx : a = c ∧ b = d := by omega
  simp [hx.1, hx.2]

/-- Replacing the chunk stored at a key does not change the number of entries. -/
theorem replaceChunk_length {T C : Type} (l : List (IVec2 × Chunk T C)) (p : IVec2)
    (c : Chunk T C) : (replaceChunk l p c).length = l.length := by
  induction l with
  | nil => rfl
  | cons e rest ih =>
    unfold replaceChunk
    split
    · simp
    · simp [ih]

/-! Claim theorems. -/

/-- C7: constructing a local coordinate from u8 values `x`, `y` fails
(`try_new` returns `none`, `new` panics on exactly the same inputs) iff
`x ≥ CHUNK_SIZE` or `y ≥ CHUNK_SIZE`; otherwise the result carries exactly the
given coordinates — no clamping. -/
theorem chunkpos_new_spec (x y : Nat) (hx : x < 256) (hy : y < 256) :
    (ChunkPos.try_new x y = none ↔ CHUNK_SIZE ≤ x ∨ CHUNK_SIZE ≤ y) ∧
    (ChunkPos.try_new x y = none ∨ ChunkPos.try_new x y = some ⟨x, y⟩) ∧
    ChunkPos.new x y = ChunkPos.try_new x y := by
  refine ⟨?_, ?_, rfl⟩ <;> unfold ChunkPos.try_new <;> split
  · simp only [reduceCtorEq, false_iff]
    omega
  · simp only [true_iff]
    omega
  · right
    rfl
  · left
    rfl

/-- Witness for C7 at `x = 40`, `y = 2`: construction fails since `40 ≥ 32`. -/
theorem chunkpos_new_spec_witness :
    ChunkPos.try_new 40 2 = none ↔ CHUNK_SIZE ≤ 40 ∨ CHUNK_SIZE ≤ 2 :=
  (chunkpos_new_spec 40 2 (by decide) (by decide)).1

/-- C8: `as_index` maps every in-range position into `[0, CHUNK_SIZE * CHUNK_SIZE)`
and, on in-range positions, is a bijection onto that range: each index below
`CHUNK_SIZE * CHUNK_SIZE` is hit by exactly one in-range position. -/
theorem as_index_bijection (p : ChunkPos) (k : Nat) (hp : p.inRange)
    (hk : k < CHUNK_SIZE * CHUNK_SIZE) :
    p.as_index < CHUNK_SIZE * CHUNK_SIZE ∧
    ∃! q : ChunkPos, q.inRange ∧ q.as_index = k := by
  have hrange : (posOfIndex k).inRange := by
    simp only [posOfIndex, ChunkPos.inRange, CHUNK_SIZE] at *
    omega
  have hidx : (posOfIndex k).as_index = k := by
    simp only [posOfIndex, ChunkPos.as_index, CHUNK_SIZE] at *
    omega
  refine ⟨ChunkPos.as_index_lt hp, posOfIndex k, ⟨hrange, hidx⟩, ?_⟩
  intro q hq
  exact ChunkPos.as_index_inj hq.1 hrange (hq.2.trans hidx.symm)

/-- Witness for C8 at `p = (3, 4)`, `k = 1000`. -/
theorem as_index_bijection_witness :
    (ChunkPos.mk 3 4).as_index < CHUNK_SIZE * CHUNK_SIZE :=
  (as_index_bijection ⟨3, 4⟩ 1000 (by decide) (by decide)).1

/-- C9: adding or subtracting a pure chunk-coordinate delta (`Add<IVec2>` /
`Sub<IVec2>`) leaves the local tile part untouched and translates only the
chunk part, by exactly `+d` respectively `-d`; the code path computes no
carry or borrow at all. -/
theorem chunk_delta_translation (a : TilemapPos) (d : IVec2) :
    (a.addChunks d).tile = a.tile ∧
    (a.addChunks d).chunk = ⟨a.chunk.x + d.x, a.chunk.y + d.y⟩ ∧
    (a.subChunks d).tile = a.tile ∧
    (a.subChunks d).chunk = ⟨a.chunk.x - d.x, a.chunk.y - d.y⟩ :=
  ⟨rfl, rfl, rfl, rfl⟩

/-- C1 counterexample: with `CHUNK_SIZE = 32`, adding local `(31, 0)` to
`(1, 0)` makes the raw x sum `32`, which leaves `[0, 32)`, yet
`overflowing_add` reports no overflow on x (the source tests `r > CHUNK_SIZE`
instead of `r >= CHUNK_SIZE`), so `TilemapPos` addition leaves the chunk x
coordinate unchanged instead of incrementing it by 1. -/
theorem overflowing_add_carry_bug :
    ChunkPos.overflowing_add ⟨CHUNK_SIZE - 1, 0⟩ ⟨1, 0⟩ = (⟨0, 0⟩, false, false) ∧
    TilemapPos.add ⟨⟨0, 0⟩, ⟨CHUNK_SIZE - 1, 0⟩⟩ ⟨⟨0, 0⟩, ⟨1, 0⟩⟩ = ⟨⟨0, 0⟩, ⟨0, 0⟩⟩ ∧
    ChunkPos.overflowing_add ⟨CHUNK_SIZE - 1, 0⟩ ⟨2, 0⟩ = (⟨1, 0⟩, true, false) := by
  decide

/-- C2 counterexample: with `CHUNK_SIZE = 32`, the absolute pair `(-1, -1)`
converts to chunk `(0, 0)` (Rust truncating division `-1 / 32 = 0`, not floor
division giving `-1`) with local `(31, 31)`, and converting back yields
`(31, 31)` rather than `(-1, -1)` — the round-trip fails on negative pairs. -/
theorem fromIVec2_roundtrip_bug :
    TilemapPos.fromIVec2 ⟨-1, -1⟩ = ⟨⟨0, 0⟩, ⟨31, 31⟩⟩ ∧
    TilemapPos.toIVec2 (TilemapPos.fromIVec2 ⟨-1, -1⟩) = ⟨31, 31⟩ ∧
    TilemapPos.toIVec2 (TilemapPos.fromIVec2 ⟨40, 33⟩) = ⟨40, 33⟩ := by
  decide

/-- C10 counterexample: `set_y` writes the x field (source assigns `self.0`),
so `set_y(5)` on `(0, 0)` produces `(5, 0)` with y still `0`; and both setters
assert `v <= CHUNK_SIZE` instead of `v < CHUNK_SIZE`, so the out-of-range
value `32` is accepted, breaking the `< CHUNK_SIZE` invariant. -/
theorem chunkpos_setters_bug :
    ChunkPos.set_y ⟨0, 0⟩ 5 = some ⟨5, 0⟩ ∧
    ChunkPos.set_x ⟨0, 0⟩ CHUNK_SIZE = some ⟨CHUNK_SIZE, 0⟩ ∧
    ChunkPos.set_y ⟨3, 4⟩ CHUNK_SIZE = some ⟨CHUNK_SIZE, 4⟩ := by
  decide

/-- C6: for in-range positions, `overflowing_sub` returns per axis the raw
difference reduced into `[0, CHUNK_SIZE)` together with a borrow flag that is
true exactly when the raw difference left `[0, CHUNK_SIZE)`; consequently
`(0,0) - (1,0)` through `TilemapPos` subtraction gives local
`(CHUNK_SIZE - 1, 0)` with chunk x decremented by exactly 1, chunk y
unchanged. -/
theorem overflowing_sub_spec (a b : ChunkPos) (ha : a.inRange) (hb : b.inRange) :
    (((ChunkPos.overflowing_sub a b).1.x : Int) =
        ((a.x : Int) - (b.x : Int))% (CHUNK_SIZE : Int) ∧
     ((ChunkPos.overflowing_sub a b).1.y : Int) =
        ((a.y : Int) - (b.y : Int))% (CHUNK_SIZE : Int)) ∧
    ((ChunkPos.overflowing_sub a b).2.1 = true ↔
        (a.x : Int) - (b.x : Int) < 0 ∨ (CHUNK_SIZE : Int) ≤ (a.x : Int) - (b.x : Int)) ∧
    ((ChunkPos.overflowing_sub a b).2.2 = true ↔
        (a.y : Int) - (b.y : Int) < 0 ∨ (CHUNK_SIZE : Int) ≤ (a.y : Int) - (b.y : Int)) ∧
    TilemapPos.sub ⟨⟨0, 0⟩, ⟨0, 0⟩⟩ ⟨⟨0, 0⟩, ⟨1, 0⟩⟩ = ⟨⟨-1, 0⟩, ⟨CHUNK_SIZE - 1, 0⟩⟩ := by
  obtain ⟨ha1, ha2⟩ := ha
  obtain ⟨hb1, hb2⟩ := hb
  simp only [ChunkPos.overflowing_sub, overflowing_sub_u8, overflowing_sub_u8_prim,
    wrapping_sub_u8, land_chunk_mask, decide_eq_true_eq] at *
  refine ⟨⟨?_, ?_⟩, ?_, ?_, by decide⟩ <;>
    simp only [CHUNK_SIZE, Nat.cast_ofNat] at * <;> omega

/-- Witness for C6 at `a = (0, 3)`, `b = (1, 2)`. -/
theorem overflowing_sub_spec_witness :
    (((ChunkPos.overflowing_sub ⟨0, 3⟩ ⟨1, 2⟩).1.x : Int) =
        (((0 : Nat) : Int) - ((1 : Nat) : Int))% (CHUNK_SIZE : Int) ∧
     ((ChunkPos.overflowing_sub ⟨0, 3⟩ ⟨1, 2⟩).1.y : Int) =
        (((3 : Nat) : Int) - ((2 : Nat) : Int))% (CHUNK_SIZE : Int)) ∧
    ((ChunkPos.overflowing_sub ⟨0, 3⟩ ⟨1, 2⟩).2.1 = true ↔
        ((0 : Nat) : Int) - ((1 : Nat) : Int) < 0 ∨
          (CHUNK_SIZE : Int) ≤ ((0 : Nat) : Int) - ((1 : Nat) : Int)) ∧
    ((ChunkPos.overflowing_sub ⟨0, 3⟩ ⟨1, 2⟩).2.2 = true ↔
        ((3 : Nat) : Int) - ((2 : Nat) : Int) < 0 ∨
          (CHUNK_SIZE : Int) ≤ ((3 : Nat) : Int) - ((2 : Nat) : Int)) ∧
    TilemapPos.sub ⟨⟨0, 0⟩, ⟨0, 0⟩⟩ ⟨⟨0, 0⟩, ⟨1, 0⟩⟩ = ⟨⟨-1, 0⟩, ⟨CHUNK_SIZE - 1, 0⟩⟩ :=
  overflowing_sub_spec ⟨0, 3⟩ ⟨1, 2⟩ (by decide) (by decide)

/-- C5: for an in-range position `p`, `Chunk::set` writes the slot at `p`,
unconditionally raises the dirty flag (no comparison with the previous value),
and returns the prior occupant; `Chunk::remove` clears the slot, raises the
flag, and returns the prior occupant; any other in-range slot `q` is left
unchanged by both. -/
theorem chunk_set_remove_spec {T C : Type} (c : Chunk T C) (p q : ChunkPos) (t : T)
    (hp : p.inRange) (hq : q.inRange) (hne : q ≠ p) :
    (c.set p t).1.getSlot p = some t ∧
    (c.set p t).1.regenerate_mesh = true ∧
    (c.set p t).2 = c.getSlot p ∧
    (c.set p t).1.getSlot q = c.getSlot q ∧
    (c.remove p).1.getSlot p = none ∧
    (c.remove p).1.regenerate_mesh = true ∧
    (c.remove p).2 = c.getSlot p ∧
    (c.remove p).1.getSlot q = c.getSlot q := by
  have hip := ChunkPos.as_index_lt hp
  have hiq := ChunkPos.as_index_lt hq
  have hneidx : q.as_index ≠ p.as_index := fun h => hne (ChunkPos.as_index_inj hq hp h)
  simp [Chunk.set, Chunk.remove, Chunk.getSlot, hip, hiq, hneidx]

/-- Witness for C5 on a default chunk at `p = (1, 2)`, `q = (3, 4)`, tile 7. -/
theorem chunk_set_remove_spec_witness :
    ((Chunk.defaultChunk 0 : Chunk Nat Nat).set ⟨1, 2⟩ 7).1.getSlot ⟨1, 2⟩ = some 7 ∧
    ((Chunk.defaultChunk 0 : Chunk Nat Nat).set ⟨1, 2⟩ 7).1.regenerate_mesh = true ∧
    ((Chunk.defaultChunk 0 : Chunk Nat Nat).set ⟨1, 2⟩ 7).2 =
      (Chunk.defaultChunk 0 : Chunk Nat Nat).getSlot ⟨1, 2⟩ ∧
    ((Chunk.defaultChunk 0 : Chunk Nat Nat).set ⟨1, 2⟩ 7).1.getSlot ⟨3, 4⟩ =
      (Chunk.defaultChunk 0 : Chunk Nat Nat).getSlot ⟨3, 4⟩ ∧
    ((Chunk.defaultChunk 0 : Chunk Nat Nat).remove ⟨1, 2⟩).1.getSlot ⟨1, 2⟩ = none ∧
    ((Chunk.defaultChunk 0 : Chunk Nat Nat).remove ⟨1, 2⟩).1.regenerate_mesh = true ∧
    ((Chunk.defaultChunk 0 : Chunk Nat Nat).remove ⟨1, 2⟩).2 =
      (Chunk.defaultChunk 0 : Chunk Nat Nat).getSlot ⟨1, 2⟩ ∧
    ((Chunk.defaultChunk 0 : Chunk Nat Nat).remove ⟨1, 2⟩).1.getSlot ⟨3, 4⟩ =
      (Chunk.defaultChunk 0 : Chunk Nat Nat).getSlot ⟨3, 4⟩ :=
  chunk_set_remove_spec (Chunk.defaultChunk 0) ⟨1, 2⟩ ⟨3, 4⟩ 7
    (by decide) (by decide) (by decide)

/-- C4: on a coordinate whose chunk was never written, `Tilemap::get` returns
absence (and, the lookups being pure, the map is untouched), `Tilemap::remove`
is a no-op returning nothing, and `Tilemap::set` inserts exactly one chunk;
a second write through the same chunk coordinate inserts no further chunk. -/
theorem tilemap_sparse_spec {T C : Type} (m : Tilemap T C) (pos : TilemapPos)
    (t t2 : T) (d0 : C) (h : m.get_chunk pos.chunk = none) :
    m.get pos = none ∧
    m.removeAt pos = (m, none) ∧
    ((m.set d0 pos t).1).numChunks = m.numChunks + 1 ∧
    (((m.set d0 pos t).1).set d0 pos t2).1.numChunks = m.numChunks + 1 := by
  have hfind : m.data.find? (fun e => decide (e.1 = pos.chunk)) = none := by
    unfold Tilemap.get_chunk at h
    cases hf : m.data.find? (fun e => decide (e.1 = pos.chunk)) with
    | none => rfl
    | some e => rw [hf] at h; simp at h
  refine ⟨?_, ?_, ?_, ?_⟩
  · unfold Tilemap.get
    rw [h]
    rfl
  · unfold Tilemap.removeAt
    rw [h]
  · unfold Tilemap.set
    rw [h]
    simp [Tilemap.numChunks]
  · unfold Tilemap.set
    rw [h]
    have hg : (Tilemap.mk
        (m.data ++ [(pos.chunk, ((Chunk.defaultChunk d0 : Chunk T C).set pos.tile t).1)])
          : Tilemap T C).get_chunk pos.chunk =
        some ((Chunk.defaultChunk d0 : Chunk T C).set pos.tile t).1 := by
      unfold Tilemap.get_chunk
      rw [List.find?_append, hfind]
      simp
    simp only [hg, Tilemap.numChunks, replaceChunk_length, List.length_append,
      List.length_singleton]

/-- Witness for C4 on the empty tilemap at position zero. -/
theorem tilemap_sparse_spec_witness :
    (Tilemap.mk [] : Tilemap Nat Nat).get ⟨⟨0, 0⟩, ⟨0, 0⟩⟩ = none ∧
    (Tilemap.mk [] : Tilemap Nat Nat).removeAt ⟨⟨0, 0⟩, ⟨0, 0⟩⟩ = (Tilemap.mk [], none) ∧
    (((Tilemap.mk [] : Tilemap Nat Nat).set 0 ⟨⟨0, 0⟩, ⟨0, 0⟩⟩ 5).1).numChunks =
      (Tilemap.mk [] : Tilemap Nat Nat).numChunks + 1 ∧
    ((((Tilemap.mk [] : Tilemap Nat Nat).set 0 ⟨⟨0, 0⟩, ⟨0, 0⟩⟩ 5).1).set 0
        ⟨⟨0, 0⟩, ⟨0, 0⟩⟩ 6).1.numChunks =
      (Tilemap.mk [] : Tilemap Nat Nat).numChunks + 1 :=
  tilemap_sparse_spec (Tilemap.mk []) ⟨⟨0, 0⟩, ⟨0, 0⟩⟩ 5 6 0 rfl

/-- C3 divergence: one execution of the mesh-generation pass over a dirty
chunk seeds a builder with the chunk's current carry data, folds every
occupied tile slot in row-major order into it, and stores the new carry data
back — but it leaves `regenerate_mesh` set: the source never clears the flag,
so a rebuilt chunk still reports dirty.  A chunk whose flag is unset is left
entirely unchanged. -/
theorem generate_meshes_keeps_dirty {T : Type} (mb : MeshBuilderSpec T)
    (resolvable : Nat → Bool) (fresh : Nat) (c : Chunk T mb.CarryData)
    (h : c.regenerate_mesh = true) :
    (generateMeshChunk mb resolvable fresh c).regenerate_mesh = true ∧
    (generateMeshChunk mb resolvable fresh c).mesh_carry_data =
      (mb.finish (c.tilePositions.foldl
        (fun b pt => mb.add_to_mesh pt.2 (mb.set_offset pt.1 b))
        (mb.init c.mesh_carry_data))).2 ∧
    (generateMeshChunk mb resolvable fresh c).tiles = c.tiles ∧
    generateMeshChunk mb resolvable fresh { c with regenerate_mesh := false } =
      { c with regenerate_mesh := false } := by
  unfold generateMeshChunk
  rw [h]
  simp

/-- Concrete mesh-builder capability used to witness C3: the builder sums the
tiles it is fed onto the incoming carry data. -/
def mbWitness : MeshBuilderSpec Nat :=
  { CarryData := Nat
    carryDefault := 0
    Builder := Nat
    Mesh := Nat
    init := fun c => c
    set_offset := fun _ b => b
    add_to_mesh := fun t b => b + t
    finish := fun b => (b, b + 1) }

/-- Concrete dirty chunk used to witness C3. -/
def chunkWitness : Chunk Nat Nat :=
  { tiles := fun i => if i.val = 0 then some 9 else none
    regenerate_mesh := true
    mesh_carry_data := 5
    mesh_entity := none }

/-- Witness for C3 on a dirty one-tile chunk. -/
theorem generate_meshes_keeps_dirty_witness :
    (generateMeshChunk mbWitness (fun _ => true) 7 chunkWitness).regenerate_mesh = true ∧
    (generateMeshChunk mbWitness (fun _ => true) 7 chunkWitness).mesh_carry_data =
      (mbWitness.finish (chunkWitness.tilePositions.foldl
        (fun b pt => mbWitness.add_to_mesh pt.2 (mbWitness.set_offset pt.1 b))
        (mbWitness.init chunkWitness.mesh_carry_data))).2 ∧
    (generateMeshChunk mbWitness (fun _ => true) 7 chunkWitness).tiles =
      chunkWitness.tiles ∧
    generateMeshChunk mbWitness (fun _ => true) 7
        { chunkWitness with regenerate_mesh := false } =
      { chunkWitness with regenerate_mesh := false } :=
  generate_meshes_keeps_dirty mbWitness (fun _ => true) 7 chunkWitness rfl

end BevySparseTilemap
